import Mathlib

/-!
Verification of the fixture-store utilities of the rocket-rental repository
(`updateFixture`, `readFixture`, `requiredParam`, `requiredHeader`,
`requiredProperty` and the module-level `updating` slot / `clearingFixture`
initialisation), shallowly embedded from the TypeScript source.

The embedding has two layers:
* a sequential layer modelling one `readFixture` call as a function on the
  persisted-file state, with explicit success/failure of the file-system
  operations it performs;
* a small-step layer modelling any number of concurrent `updateFixture`
  calls on the single-threaded event loop: each task advances through the
  await points of the source function, and a schedule (list of task ids)
  picks which task's next atomic block runs.
-/

/-- JSON values, as persisted in the fixture file and passed as patch values. -/
inductive Json where
  | null : Json
  | bool : Bool → Json
  | num : Int → Json
  | str : String → Json
  | arr : List Json → Json
  | obj : List (String × Json) → Json

/-- A JSON object body: the fixture document, and `updateFixture` patches. -/
abbrev Doc := List (String × Json)

/-- Property access `o[k]` on a JSON object: first entry with the key. -/
def lookupDoc : Doc → String → Option Json
  | [], _ => none
  | (k, v) :: rest, key => if k = key then some v else lookupDoc rest key

/-- Entry of the spread `\x7b...d, ...p\x7d` coming from `d`: the key keeps its
position; the value is overridden when `p` also has the key. -/
def overrideEntry (p : Doc) (kv : String × Json) : String × Json :=
  match lookupDoc p kv.1 with
  | some v => (kv.1, v)
  | none => kv

/-- JavaScript object spread `\x7b...d, ...p\x7d`: keys of `d` in order with
values overridden by `p` where present, then the keys of `p` new to `d`. -/
def mergeDoc (d p : Doc) : Doc :=
  d.map (overrideEntry p) ++ p.filter (fun kv => (lookupDoc d kv.1).isNone)

/-- Entries contributed by `...j` when a JSON value is spread into an object
literal: objects contribute their entries, strings and arrays their indexed
elements, and primitives contribute nothing. -/
def Json.spreadEntries : Json → Doc
  | .obj entries => entries
  | .arr elems => elems.enum.map (fun iv => (toString iv.1, iv.2))
  | .str s => s.toList.enum.map (fun ic => (toString ic.1, Json.str (String.mk [ic.2])))
  | _ => []

/-- The persisted fixture file (`msw.local.json`): absent, present but not
valid JSON, or present with parsed content `j`. -/
inductive FileState where
  | missing : FileState
  | corrupt : FileState
  | content : Json → FileState

/-- Errors surfaced by the embedded functions: rejection of the
`clearingFixture` promise, failure of the recovery write in `readFixture`,
failure of the `writeFile` of task `i`'s update cycle, and the `TypeError`
thrown by `updating.resolve` / `updating.reject` when `updating` is `null`. -/
inductive JsError where
  | clearingFailed : JsError
  | recoveryWriteFailed : JsError
  | writeFailed : Nat → JsError
  | typeError : JsError

/-- Outcome of one `readFixture()` call: the value returned (or the error
raised), the file state afterwards, and whether the failure branch logged. -/
structure ReadResult where
  result : Except JsError Json
  fs : FileState
  logged : Bool

/-- `readFixture()`: awaits `clearingFixture` (its rejection propagates),
reads and parses the file inside `try`; on read or parse failure logs and
awaits `writeFile(mswDataPath, String.mk [Char.ofNat 123, Char.ofNat 125])`
(its rejection propagates), returning the initial `\x7b\x7d`; otherwise
returns the parsed value unchanged. -/
def readFixtureM (clearingFailed recoveryWriteFails : Bool) (fs : FileState) :
    ReadResult :=
  if clearingFailed then ⟨.error .clearingFailed, fs, false⟩
  else
    match fs with
    | .content j => ⟨.ok j, .content j, false⟩
    | bad =>
      if recoveryWriteFails then ⟨.error .recoveryWriteFailed, bad, true⟩
      else ⟨.ok (Json.obj []), .content (Json.obj []), true⟩

/-- The module-load side effect `fs.promises.writeFile(mswDataPath, '\x7b\x7d')`
(the `clearingFixture` write), assuming it succeeds: whatever the file held
before the process started, it now holds the empty object. -/
def processStart (_fs : FileState) : FileState :=
  .content (Json.obj [])

/-- Where an `updateFixture` task stands, split at the `await` points of the
source function. -/
inductive Phase where
  | notStarted : Phase
  | waiting : Nat → Phase
  | reading : Phase
  | writing : Json → Phase
  | done : Except JsError Unit → Phase

/-- One `updateFixture(patch)` call, together with the fate of the file-system
operations its cycle will perform. -/
structure UTask where
  patch : Doc
  writeFails : Bool
  recoveryFails : Bool
  phase : Phase

/-- Settlement state of one deferred (one generation of `updating`). -/
inductive DStatus where
  | pending : DStatus
  | resolvedD : DStatus
  | rejectedD : JsError → DStatus

/-- The whole event-loop state: the persisted file, whether `clearingFixture`
rejected, the module variable `updating` (`none` = `null`, `some g` = the
deferred of generation `g`), the settlement state of every deferred created
so far (its length is the next fresh generation), and the tasks. -/
structure SysState where
  fs : FileState
  clearingFailed : Bool
  slot : Option Nat
  dstats : List DStatus
  tasks : List UTask

/-- Settlement of generation `g` (pending when out of range). -/
def getDStatus (l : List DStatus) (g : Nat) : DStatus :=
  l.getD g .pending

/-- The tail of an update cycle, run synchronously after its `writeFile`
settles: `try \x7b ... updating.resolve(...) \x7d catch (e) \x7b
updating.reject(e) \x7d finally \x7b updating = null \x7d`. With `werr = none`
the cycle's writes succeeded and the current deferred (whoever owns it) is
resolved; with `werr = some e` the caught error is poured into the current
deferred, and the function still returns normally. When `updating` is `null`,
`updating.resolve` (and then `updating.reject` inside `catch`) throws a
`TypeError`, which escapes the function. Returns the new `updating`, the new
deferred table, and the task's own settlement. -/
def epilogue (slot : Option Nat) (dstats : List DStatus) (werr : Option JsError) :
    Option Nat × List DStatus × Except JsError Unit :=
  match slot, werr with
  | some g, none => (none, dstats.set g .resolvedD, .ok ())
  | some g, some e => (none, dstats.set g (.rejectedD e), .ok ())
  | none, _ => (none, dstats, .error .typeError)

/-- Replace task `i`'s phase. -/
def setPhase (s : SysState) (i : Nat) (t : UTask) (p : Phase) : SysState :=
  { s with tasks := s.tasks.set i { t with phase := p } }

/-- Run task `i`'s next atomic block (source lines of `updateFixture`):

* `notStarted`: the synchronous prologue `if (updating) \x7b await
  updating.promise \x7d else \x7b updating = deferred() \x7d` — either start
  waiting on the current deferred, or claim the slot with a fresh deferred and
  fall through to the read;
* `waiting g`: resumption of `await updating.promise` — enabled once the
  deferred settles; a resolution falls through to the read, a rejection
  throws at the `await` (outside the `try`), settling the task with that
  error; the slot is NOT re-claimed;
* `reading`: the `await readFixture()` round trip, then synchronously
  `JSON.stringify(\x7b...mswData, ...updates\x7d)` and the start of
  `writeFile`; a rejection of `readFixture` is caught by the `catch`, so the
  epilogue runs with that error;
* `writing j`: settlement of `await fs.promises.writeFile(...)` — on success
  the file now holds `j`; either way the epilogue runs synchronously;
* `done`: nothing.

A step on an absent or non-enabled task leaves the state unchanged. -/
def stepTask (s : SysState) (i : Nat) : SysState :=
  match s.tasks.get? i with
  | none => s
  | some t =>
    match t.phase with
    | .notStarted =>
      match s.slot with
      | some g => setPhase s i t (.waiting g)
      | none =>
        { setPhase s i t .reading with
            slot := some s.dstats.length
            dstats := s.dstats ++ [.pending] }
    | .waiting g =>
      match getDStatus s.dstats g with
      | .pending => s
      | .resolvedD => setPhase s i t .reading
      | .rejectedD e => setPhase s i t (.done (.error e))
    | .reading =>
      let r := readFixtureM s.clearingFailed t.recoveryFails s.fs
      match r.result with
      | .ok j =>
        { setPhase s i t (.writing (Json.obj (mergeDoc j.spreadEntries t.patch))) with
            fs := r.fs }
      | .error e =>
        match epilogue s.slot s.dstats (some e) with
        | (slot2, ds2, res) =>
          { setPhase s i t (.done res) with fs := r.fs, slot := slot2, dstats := ds2 }
    | .writing j =>
      if t.writeFails then
        match epilogue s.slot s.dstats (some (.writeFailed i)) with
        | (slot2, ds2, res) =>
          { setPhase s i t (.done res) with slot := slot2, dstats := ds2 }
      else
        match epilogue s.slot s.dstats none with
        | (slot2, ds2, res) =>
          { setPhase s i t (.done res) with fs := .content j, slot := slot2, dstats := ds2 }
    | .done _ => s

/-- Run a schedule: at each step the event loop runs the named task's next
atomic block. -/
def run (s : SysState) (sched : List Nat) : SysState :=
  sched.foldl stepTask s

/-- Initial event-loop state after a successful `clearingFixture` write, with
the given tasks about to call `updateFixture`. -/
def initState (fs : FileState) (tasks : List UTask) : SysState :=
  ⟨fs, false, none, [], tasks⟩

/-- A task that will call `updateFixture patch` and whose file operations all
succeed. -/
def mkTask (patch : Doc) : UTask :=
  ⟨patch, false, false, .notStarted⟩

/-- Phase of task `i` (`done (.ok ())` when out of range, never used so). -/
def taskPhase (s : SysState) (i : Nat) : Phase :=
  ((s.tasks.getD i (mkTask [])).phase)

/-- Lookup in the persisted document (`none` when the file is not a readable
object). -/
def fsLookup (fs : FileState) (k : String) : Option Json :=
  match fs with
  | .content (Json.obj entries) => lookupDoc entries k
  | _ => none

/-- JavaScript truthiness of `params.get(k)` / `headers.get(k)`: `null`
(absent) and the empty string are falsy, every other string is truthy. -/
def falsyOptStr : Option String → Bool
  | none => true
  | some s => s.isEmpty

/-- JavaScript truthiness of `object[property]` on a JSON-valued object:
absent (`undefined`), `null`, `false`, `0` and `""` are falsy; arrays and
objects are always truthy. -/
def falsyJson : Option Json → Bool
  | none => true
  | some .null => true
  | some (.bool b) => !b
  | some (.num n) => n == 0
  | some (.str s) => s.isEmpty
  | some (.arr _) => false
  | some (.obj _) => false

/-- `URLSearchParams.get(k)`: the first value for the name, or `null`. -/
def searchParamsGet (params : List (String × String)) (k : String) : Option String :=
  match params with
  | [] => none
  | (name, v) :: rest => if name = k then some v else searchParamsGet rest k

/-- ASCII lower-casing of one character (the case `Headers` normalises). -/
def lowerChar (c : Char) : Char :=
  if 'A' ≤ c ∧ c ≤ 'Z' then Char.ofNat (c.toNat + 32) else c

/-- ASCII lower-casing of a header name. -/
def lowerStr (s : String) : String :=
  String.mk (s.data.map lowerChar)

/-- `Headers.get(k)`: header names compare case-insensitively. -/
def headersGet (headers : List (String × String)) (k : String) : Option String :=
  match headers with
  | [] => none
  | (name, v) :: rest =>
    if lowerStr name = lowerStr k then some v else headersGet rest k

/-- `Object.fromEntries`: keys in first-occurrence order, each key bound to
its last value. -/
def fromEntriesStr (l : List (String × String)) : List (String × String) :=
  l.foldl
    (fun acc kv =>
      if acc.any (fun kv2 => kv2.1 == kv.1) then
        acc.map (fun kv2 => if kv2.1 == kv.1 then kv else kv2)
      else acc ++ [kv])
    []

/-- `headers.entries()` yields lowercased header names. -/
def headersEntries (headers : List (String × String)) : List (String × String) :=
  headers.map (fun kv => (lowerStr kv.1, kv.2))

/-- Body of a rendered string-valued JSON object. -/
def renderStrEntries : List (String × String) → String
  | [] => ""
  | [(k, v)] => "\"" ++ k ++ "\":\"" ++ v ++ "\""
  | (k, v) :: rest => "\"" ++ k ++ "\":\"" ++ v ++ "\"," ++ renderStrEntries rest

/-- `JSON.stringify` of a string-valued object (whitespace abstracted). -/
def renderStrMap (l : List (String × String)) : String :=
  "\x7b" ++ renderStrEntries l ++ "\x7d"

mutual
/-- `JSON.stringify` of a JSON value (whitespace and escaping abstracted). -/
def renderJson : Json → String
  | .null => "null"
  | .bool true => "true"
  | .bool false => "false"
  | .num n => toString n
  | .str s => "\"" ++ s ++ "\""
  | .arr elems => "[" ++ renderJsonArr elems ++ "]"
  | .obj entries => "\x7b" ++ renderJsonObj entries ++ "\x7d"

/-- Comma-joined rendering of array elements. -/
def renderJsonArr : List Json → String
  | [] => ""
  | [j] => renderJson j
  | j :: rest => renderJson j ++ "," ++ renderJsonArr rest

/-- Comma-joined rendering of object entries. -/
def renderJsonObj : List (String × Json) → String
  | [] => ""
  | [(k, v)] => "\"" ++ k ++ "\":" ++ renderJson v
  | (k, v) :: rest => "\"" ++ k ++ "\":" ++ renderJson v ++ "," ++ renderJsonObj rest
end

/-- `requiredParam(params, param)`: throws `Error` with the rendered dump of
`Object.fromEntries(params.entries())` when `params.get(param)` is falsy. -/
def requiredParam (params : List (String × String)) (p : String) :
    Except String Unit :=
  if falsyOptStr (searchParamsGet params p) then
    .error ("Param \"" ++ p ++ "\" required, but not found in "
      ++ renderStrMap (fromEntriesStr params))
  else .ok ()

/-- `requiredHeader(headers, header)`: throws `Error` with the rendered dump
of `Object.fromEntries(headers.entries())` when `headers.get(header)` is
falsy. -/
def requiredHeader (headers : List (String × String)) (h : String) :
    Except String Unit :=
  if falsyOptStr (headersGet headers h) then
    .error ("Header \"" ++ h ++ "\" required, but not found in "
      ++ renderStrMap (fromEntriesStr (headersEntries headers)))
  else .ok ()

/-- `requiredProperty(object, property)`: throws `Error` with
`JSON.stringify(object)` when `object[property]` is falsy. -/
def requiredProperty (object : Doc) (pr : String) : Except String Unit :=
  if falsyJson (lookupDoc object pr) then
    .error ("Property \"" ++ pr ++ "\" required, but not found in "
      ++ renderJson (Json.obj object))
  else .ok ()

/-- The document the spec promises after running the patches: each patch's
key overwrites applied sequentially, in the order the cycles were claimed. -/
def specSequentialMerge (init : Doc) (patches : List Doc) : Doc :=
  patches.foldl mergeDoc init

/-- Patch `\x7ba: 1\x7d`. -/
def patchA : Doc := [("a", Json.num 1)]

/-- Patch `\x7bb: 2\x7d`. -/
def patchB : Doc := [("b", Json.num 2)]

/-- Patch `\x7bc: 3\x7d`. -/
def patchC : Doc := [("c", Json.num 3)]

/-- Three concurrent `updateFixture` calls (`\x7ba:1\x7d`, `\x7bb:2\x7d`,
`\x7bc:3\x7d`) against an empty fixture file; all file operations succeed. -/
def threeInit : SysState :=
  initState (.content (Json.obj [])) [mkTask patchA, mkTask patchB, mkTask patchC]

/-- Event-loop order for `threeInit` realisable in the source: task 0 claims
the slot, tasks 1 and 2 call while it is occupied and both await its promise;
task 0 reads, writes and resolves; tasks 1 and 2 both wake, both read the
same document, then write one after the other. -/
def threeSched : List Nat := [0, 1, 2, 0, 0, 1, 1, 2, 2, 1, 2]

/-- `threeSched` stopped just before the last two writes: tasks 1 and 2 are
both mid-cycle. -/
def threeSchedMid : List Nat := [0, 1, 2, 0, 0, 1, 1, 2, 2]

/-- Two concurrent `updateFixture` calls (`\x7ba:1\x7d` then `\x7bb:2\x7d`)
against an empty fixture file; all file operations succeed. -/
def twoInit : SysState :=
  initState (.content (Json.obj [])) [mkTask patchA, mkTask patchB]

/-- Event-loop order for `twoInit`: task 0 claims, task 1 arrives while the
cycle is in flight and awaits; task 0 finishes; task 1 wakes and runs its own
cycle to completion. -/
def twoSched : List Nat := [0, 1, 0, 0, 1, 1, 1]

/-- `twoSched` stopped right after task 1 wakes from the await and enters its
own cycle. -/
def twoSchedMid : List Nat := [0, 1, 0, 0, 1]

/-- `updateFixture(\x7ba:1\x7d)` whose `writeFile` fails, with
`updateFixture(\x7bb:2\x7d)` queued behind it. -/
def failInit : SysState :=
  initState (.content (Json.obj [])) [⟨patchA, true, false, .notStarted⟩, mkTask patchB]

/-- Event-loop order for `failInit`: task 0 claims, task 1 awaits, task 0's
write fails, task 1 wakes. -/
def failSched : List Nat := [0, 1, 0, 0, 1]

/-- A single uncontended `updateFixture(p)` call against file state `fs`;
its write succeeds. -/
def oneInit (fs : FileState) (p : Doc) : SysState :=
  initState fs [mkTask p]

/-- The three steps of an uncontended cycle: prologue (claim), read, write. -/
def oneSched : List Nat := [0, 0, 0]

/-- Whether a JSON value is an object. -/
def Json.isObj : Json → Bool
  | .obj _ => true
  | _ => false

theorem lookupDoc_append (l1 l2 : Doc) (k : String) :
    lookupDoc (l1 ++ l2) k =
      match lookupDoc l1 k with
      | some v => some v
      | none => lookupDoc l2 k := by
  induction l1 with
  | nil => simp [lookupDoc]
  | cons kv rest ih =>
    obtain ⟨k0, v0⟩ := kv
    by_cases h : k0 = k
    · simp [lookupDoc, h]
    · simp [lookupDoc, h, ih]

theorem lookupDoc_map_override (p d : Doc) (k : String) :
    lookupDoc (d.map (overrideEntry p)) k =
      match lookupDoc d k, lookupDoc p k with
      | some _, some w => some w
      | some v, none => some v
      | none, _ => none := by
  induction d with
  | nil => simp [lookupDoc]
  | cons kv rest ih =>
    obtain ⟨k0, v0⟩ := kv
    by_cases h : k0 = k
    · subst h
      cases hp : lookupDoc p k0 <;> simp [lookupDoc, overrideEntry, hp]
    · cases hp : lookupDoc p k0 <;> simp [lookupDoc, overrideEntry, hp, h, ih]

theorem lookupDoc_filter_isNone (d p : Doc) (k : String) :
    lookupDoc (p.filter (fun kv => (lookupDoc d kv.1).isNone)) k =
      match lookupDoc d k with
      | some _ => none
      | none => lookupDoc p k := by
  induction p with
  | nil => cases h : lookupDoc d k <;> simp [lookupDoc, h]
  | cons kv rest ih =>
    obtain ⟨k1, v1⟩ := kv
    by_cases h : k1 = k
    · subst h
      cases hd : lookupDoc d k1 <;> simp [List.filter, lookupDoc, hd, ih]
    · cases hd : lookupDoc d k1 <;> simp [List.filter, lookupDoc, hd, h, ih]

theorem lookupDoc_mergeDoc (d p : Doc) (k : String) :
    lookupDoc (mergeDoc d p) k =
      match lookupDoc p k with
      | some w => some w
      | none => lookupDoc d k := by
  unfold mergeDoc
  rw [lookupDoc_append, lookupDoc_map_override]
  cases hd : lookupDoc d k <;> cases hp : lookupDoc p k <;>
    simp [lookupDoc_filter_isNone, hd, hp]

/-- C1: the claim says concurrent `updateFixture` calls never lose an update:
the final document should equal the patches' key overwrites applied in claim
order (here containing `b:2`). In the source, a caller that waited on the
in-flight deferred never re-claims the slot, so once the first cycle resolves,
every queued caller proceeds at once: under the realisable schedule
`threeSched`, tasks 1 and 2 both read `\x7ba:1\x7d` and task 2's write
overwrites task 1's, leaving `\x7ba:1, c:3\x7d` with `b` lost. -/
theorem c1_concurrent_updates_lose_patches :
    lookupDoc (specSequentialMerge [] [patchA, patchB, patchC]) "b"
        = some (Json.num 2)
    ∧ (run threeInit threeSched).fs
        = .content (Json.obj [("a", Json.num 1), ("c", Json.num 3)])
    ∧ fsLookup (run threeInit threeSched).fs "b" = none :=
  ⟨rfl, rfl, rfl⟩

/-- C2: the claim says a queued caller waits, then claims the now-empty slot
and its promise resolves once its own write completes. In the source the
waiter never claims the slot (`updating` stays `null` during its whole
cycle), and its epilogue `updating.resolve(...)` throws a `TypeError`, so its
promise rejects even though its write succeeded: after `twoSchedMid` task 1
is mid-cycle with the slot empty, and after `twoSched` the file holds both
patches yet task 1 settled with the `TypeError`. -/
theorem c2_waiter_never_claims_slot :
    (run twoInit twoSchedMid).slot = none
    ∧ taskPhase (run twoInit twoSchedMid) 1 = .reading
    ∧ (run twoInit twoSched).fs
        = .content (Json.obj [("a", Json.num 1), ("b", Json.num 2)])
    ∧ taskPhase (run twoInit twoSched) 1 = .done (.error .typeError) :=
  ⟨rfl, rfl, rfl, rfl⟩

/-- C3: the claim says a failed write propagates to the caller whose cycle
failed and to no other caller. In the source the `catch` block pours the
error into the shared deferred instead of rethrowing, so the failing caller's
promise resolves normally, while the queued caller — whose own cycle never
ran — receives the error when its `await updating.promise` throws. The slot
is indeed cleared (`finally`). -/
theorem c3_write_failure_misrouted :
    taskPhase (run failInit failSched) 0 = .done (.ok ())
    ∧ taskPhase (run failInit failSched) 1 = .done (.error (.writeFailed 0))
    ∧ (run failInit failSched).slot = none :=
  ⟨rfl, rfl, rfl⟩

/-- C4: a single uncontended `updateFixture P` against a readable document
`D` persists exactly the shallow merge: its run resolves, the file afterwards
holds `mergeDoc D P`, every key of `P` maps to `P`'s value, every key of `D`
not in `P` keeps `D`'s value, and no key of `D` is removed. -/
theorem c4_uncontended_update_is_shallow_merge (D P : Doc) :
    (run (oneInit (.content (Json.obj D)) P) oneSched).fs
        = .content (Json.obj (mergeDoc D P))
    ∧ taskPhase (run (oneInit (.content (Json.obj D)) P) oneSched) 0
        = .done (.ok ())
    ∧ (∀ k v, lookupDoc P k = some v → lookupDoc (mergeDoc D P) k = some v)
    ∧ (∀ k, lookupDoc P k = none → lookupDoc (mergeDoc D P) k = lookupDoc D k)
    ∧ (∀ k, (lookupDoc D k).isSome → (lookupDoc (mergeDoc D P) k).isSome) := by
  refine ⟨rfl, rfl, ?_, ?_, ?_⟩
  · intro k v h
    rw [lookupDoc_mergeDoc, h]
  · intro k h
    rw [lookupDoc_mergeDoc, h]
  · intro k h
    rw [lookupDoc_mergeDoc]
    cases hp : lookupDoc P k
    · exact h
    · rfl

/-- Witness for C4 at `D = \x7bx:9\x7d`, `P = \x7ba:1\x7d`. -/
theorem c4_witness :
    lookupDoc (mergeDoc [("x", Json.num 9)] patchA) "a" = some (Json.num 1)
    ∧ lookupDoc (mergeDoc [("x", Json.num 9)] patchA) "x"
        = lookupDoc [("x", Json.num 9)] "x" :=
  ⟨(c4_uncontended_update_is_shallow_merge [("x", Json.num 9)] patchA).2.2.1
      "a" (Json.num 1) rfl,
   (c4_uncontended_update_is_shallow_merge [("x", Json.num 9)] patchA).2.2.2.1
      "x" rfl⟩

/-- C5 counterexample: `readFixture` is claimed never to raise under any
circumstance, but when the read fails AND the recovery
`writeFile(mswDataPath, '\x7b\x7d')` inside the `catch` block also fails, that
rejection escapes `readFixture` (and the file is not rewritten); likewise a
rejected `clearingFixture` promise escapes at the first `await`. -/
theorem c5_counterexample_read_can_raise :
    (readFixtureM false true .corrupt).result = .error .recoveryWriteFailed
    ∧ (readFixtureM false true .corrupt).fs = .corrupt
    ∧ (readFixtureM true false (.content (Json.obj []))).result
        = .error .clearingFailed :=
  ⟨rfl, rfl, rfl⟩

/-- C5 amended: provided the startup clearing write succeeded and the
recovery write succeeds, `readFixture` never raises: a readable file is
returned as parsed without logging, and a missing or unparsable file is
logged, rewritten to the empty-object JSON, and reported as the empty
mapping. -/
theorem c5_read_failure_recovered :
    (∀ j, readFixtureM false false (.content j) = ⟨.ok j, .content j, false⟩)
    ∧ readFixtureM false false .missing
        = ⟨.ok (Json.obj []), .content (Json.obj []), true⟩
    ∧ readFixtureM false false .corrupt
        = ⟨.ok (Json.obj []), .content (Json.obj []), true⟩ :=
  ⟨fun _ => rfl, rfl, rfl⟩

/-- C6: the claim says at most one read-modify-write cycle is ever in flight.
Under `threeSchedMid` (a realisable event-loop order for three concurrent
calls), tasks 1 and 2 are simultaneously inside their cycles — both hold a
pending `writeFile` — while the slot that is supposed to serialize them is
empty. -/
theorem c6_two_cycles_in_flight :
    taskPhase (run threeInit threeSchedMid) 1
        = .writing (Json.obj [("a", Json.num 1), ("b", Json.num 2)])
    ∧ taskPhase (run threeInit threeSchedMid) 2
        = .writing (Json.obj [("a", Json.num 1), ("c", Json.num 3)])
    ∧ (run threeInit threeSchedMid).slot = none :=
  ⟨rfl, rfl, rfl⟩

/-- C7: each assertion helper returns normally exactly when the named key is
present with a truthy value, and otherwise throws an `Error` whose message
ends with the JSON-rendered dump of the full structure. -/
theorem c7_required_helpers (ps hs : List (String × String)) (o : Doc)
    (k : String) :
    (falsyOptStr (searchParamsGet ps k) = false → requiredParam ps k = .ok ())
    ∧ (falsyOptStr (searchParamsGet ps k) = true →
        ∃ pre, requiredParam ps k
          = .error (pre ++ renderStrMap (fromEntriesStr ps)))
    ∧ (falsyOptStr (headersGet hs k) = false → requiredHeader hs k = .ok ())
    ∧ (falsyOptStr (headersGet hs k) = true →
        ∃ pre, requiredHeader hs k
          = .error (pre ++ renderStrMap (fromEntriesStr (headersEntries hs))))
    ∧ (falsyJson (lookupDoc o k) = false → requiredProperty o k = .ok ())
    ∧ (falsyJson (lookupDoc o k) = true →
        ∃ pre, requiredProperty o k
          = .error (pre ++ renderJson (Json.obj o))) := by
  refine ⟨fun h => by simp [requiredParam, h],
    fun h => ⟨"Param \"" ++ k ++ "\" required, but not found in ",
      by simp [requiredParam, h]⟩,
    fun h => by simp [requiredHeader, h],
    fun h => ⟨"Header \"" ++ k ++ "\" required, but not found in ",
      by simp [requiredHeader, h]⟩,
    fun h => by simp [requiredProperty, h],
    fun h => ⟨"Property \"" ++ k ++ "\" required, but not found in ",
      by simp [requiredProperty, h]⟩⟩

/-- Witness for C7: a present truthy param returns normally; a missing param,
a falsy (`0`) property and a present case-insensitively-matched header behave
as stated. -/
theorem c7_witness :
    requiredParam [("x", "1")] "x" = .ok ()
    ∧ (∃ pre, requiredParam [("x", "1")] "y"
        = .error (pre ++ renderStrMap (fromEntriesStr [("x", "1")])))
    ∧ requiredHeader [("X-Foo", "bar")] "x-foo" = .ok ()
    ∧ (∃ pre, requiredProperty [("p", Json.num 0)] "p"
        = .error (pre ++ renderJson (Json.obj [("p", Json.num 0)]))) :=
  ⟨(c7_required_helpers [("x", "1")] [] [] "x").1 rfl,
   (c7_required_helpers [("x", "1")] [] [] "y").2.1 rfl,
   (c7_required_helpers [] [("X-Foo", "bar")] [] "x-foo").2.2.1 (by decide),
   (c7_required_helpers [] [] [("p", Json.num 0)] "p").2.2.2.2.2 rfl⟩

/-- C8: at process start the module-load `clearingFixture` write empties the
fixture file to the `\x7b\x7d` object whatever it held before, and
`readFixture` — which awaits that write before reading — then returns the
empty mapping and leaves the file holding the empty object; a file found
missing at read time is likewise created as `\x7b\x7d` and reported empty. -/
theorem c8_process_start_initialisation (fs0 : FileState) :
    processStart fs0 = .content (Json.obj [])
    ∧ readFixtureM false false (processStart fs0)
        = ⟨.ok (Json.obj []), .content (Json.obj []), false⟩
    ∧ readFixtureM false false .missing
        = ⟨.ok (Json.obj []), .content (Json.obj []), true⟩ :=
  ⟨rfl, rfl, rfl⟩

/-- C9: an uncontended `updateFixture P` issued while the persisted file is
missing or unparsable resolves successfully: the read step first resets the
file to the empty object, then `P` is merged into the empty document, so the
persisted result holds exactly the keys of `P`. -/
theorem c9_update_on_unreadable_file (P : Doc) :
    taskPhase (run (oneInit .corrupt P) oneSched) 0 = .done (.ok ())
    ∧ taskPhase (run (oneInit .missing P) oneSched) 0 = .done (.ok ())
    ∧ (run (oneInit .corrupt P) [0, 0]).fs = .content (Json.obj [])
    ∧ (run (oneInit .corrupt P) oneSched).fs
        = .content (Json.obj (mergeDoc [] P))
    ∧ (run (oneInit .missing P) oneSched).fs
        = .content (Json.obj (mergeDoc [] P))
    ∧ (∀ k, lookupDoc (mergeDoc [] P) k = lookupDoc P k) := by
  refine ⟨rfl, rfl, rfl, rfl, rfl, fun k => ?_⟩
  rw [lookupDoc_mergeDoc]
  cases hp : lookupDoc P k
  · rfl
  · rfl

/-- C10: `readFixture` does no shape validation: any persisted content that
parses — object or not — is returned exactly as parsed, with no logging and
no rewrite of the file. -/
theorem c10_no_shape_validation (j : Json) (_h : Json.isObj j = false) :
    (readFixtureM false false (.content j)).result = .ok j
    ∧ (readFixtureM false false (.content j)).fs = .content j
    ∧ (readFixtureM false false (.content j)).logged = false :=
  ⟨rfl, rfl, rfl⟩

/-- Witness for C10 at the non-object content `null`. -/
theorem c10_witness :
    Json.isObj Json.null = false
    ∧ (readFixtureM false false (.content Json.null)).result = .ok Json.null :=
  ⟨rfl, (c10_no_shape_validation Json.null rfl).1⟩
